import Mathlib

/-!
# useCaretCoordinates

A shallow embedding of `src/hooks/useCaretCoordinates/index.ts`: the hook that mirrors a
text control into an off-screen `div`, appends a marker `span` at the caret and reads the
marker's offsets back.

Conventions of the embedding.

* A JavaScript string that is indexed by the code (`value`, `textContent`) is the list of
  its UTF-16 code units; CSS values and node names, which are only copied, compared or
  parsed, are Lean strings.
* A JavaScript number is an IEEE 754 double: `NaN`, an infinity, or a finite value held
  as its whole count of units of `2 ^ -1074`, the smallest positive double, of which every
  finite double is a multiple. `+` and `-` take the exact result and round it to 53
  significant bits, ties to even, overflowing to an infinity. The two zeros are identified,
  as `===` identifies them. Scroll offsets and the bounding rectangle are doubles;
  `offsetTop` and `offsetLeft` are integers (`long` in the DOM).
* The rendering engine is an oracle: `Window.offsetTop` and `Window.offsetLeft` give the
  marker's offsets as a function of the mirror (its style and its child nodes).
* React state is explicit: `useState`, `useRef`, `useCallback` and `useLayoutEffect` cells
  are fields of `State`, and the window's animation-frame callback list is carried along.
-/

set_option maxRecDepth 100000
set_option exponentiation.threshold 4096

namespace CaretHook

/-! ## JavaScript strings and numbers -/

/-- A JavaScript string, as the sequence of its UTF-16 code units. -/
abbrev JSString := List Nat

/-- UTF-16 code units of one Unicode scalar value. -/
def utf16Units (c : Char) : List Nat :=
  if c.toNat < 0x10000 then [c.toNat]
  else [0xD800 + (c.toNat - 0x10000) / 0x400, 0xDC00 + (c.toNat - 0x10000) % 0x400]

/-- The JavaScript string with the same text as a Lean string literal. -/
def js (s : String) : JSString :=
  (s.toList.map utf16Units).flatten

/-- A JavaScript number: `NaN`, an infinity with its sign, or a finite double given as
its count of units of `2 ^ -1074`. -/
inductive JSNumber where
  | nan
  | inf (negative : Bool)
  | fin (units : Int)
  deriving DecidableEq, Repr

/-- Number of binary digits of `n`, at most `fuel` of them. -/
def bitLengthAux : Nat → Nat → Nat
  | 0, _ => 0
  | fuel + 1, n => if n = 0 then 0 else bitLengthAux fuel (n / 2) + 1

/-- Number of binary digits of `n`; `n` itself is fuel enough. -/
def bitLength (n : Nat) : Nat :=
  bitLengthAux n n

/-- Rounding of a magnitude to 53 significant bits, to nearest, ties to even: the bits
below the 53 leading ones are dropped and the kept part is bumped when the dropped part
is more than half a step, or exactly half a step with the kept part odd. -/
def roundMagnitude (n : Nat) : Nat :=
  let sh := bitLength n - 53
  let q := n / 2 ^ sh
  let r := n % 2 ^ sh
  let q := if 2 ^ sh < 2 * r ∨ (2 * r = 2 ^ sh ∧ q % 2 = 1) then q + 1 else q
  q * 2 ^ sh

/-- The double nearest to an exact count of units; a rounded magnitude of `2 ^ 1024`
(that is `2 ^ 2098` units) or more is an infinity. -/
def roundUnits (n : Int) : JSNumber :=
  let mag := roundMagnitude n.natAbs
  if 2 ^ 2098 ≤ mag then .inf (decide (n < 0))
  else if n < 0 then .fin (-(mag : Int)) else .fin mag

/-- JavaScript `+` on numbers. -/
def JSNumber.add : JSNumber → JSNumber → JSNumber
  | .fin a, .fin b => roundUnits (a + b)
  | .inf a, .inf b => if a = b then .inf a else .nan
  | .inf a, .fin _ => .inf a
  | .fin _, .inf b => .inf b
  | _, _ => .nan

/-- JavaScript `-` on numbers. -/
def JSNumber.sub : JSNumber → JSNumber → JSNumber
  | .fin a, .fin b => roundUnits (a - b)
  | .inf a, .inf b => if a = b then .nan else .inf a
  | .inf a, .fin _ => .inf a
  | .fin _, .inf b => .inf (!b)
  | _, _ => .nan

instance : Add JSNumber := ⟨JSNumber.add⟩
instance : Sub JSNumber := ⟨JSNumber.sub⟩

/-- The double nearest to `m / 2 ^ e`, for `e ≤ 1074`. -/
def JSNumber.dyadic (m : Int) (e : Nat) : JSNumber :=
  roundUnits (m * (2 ^ (1074 - e) : Nat))

/-- The Number value for an integer. -/
def JSNumber.ofInt (k : Int) : JSNumber :=
  JSNumber.dyadic k 0

/-- Code units matched by the regular expression class `\s` (WhiteSpace and
LineTerminator of ECMAScript); the same set is skipped by `parseInt`. -/
def isWhiteSpace (c : Nat) : Bool :=
  c == 0x09 || c == 0x0A || c == 0x0B || c == 0x0C || c == 0x0D || c == 0x20 ||
  c == 0xA0 || c == 0x1680 || (0x2000 ≤ c && c ≤ 0x200A) || c == 0x2028 ||
  c == 0x2029 || c == 0x202F || c == 0x205F || c == 0x3000 || c == 0xFEFF

/-- The code unit U+00A0, NO-BREAK SPACE. -/
def nbsp : Nat := 0xA0

/-- `String.prototype.substring(start, end)` on non-negative integer arguments: both are
clamped to the length and swapped when out of order. -/
def substring (s : JSString) (start stop : Nat) : JSString :=
  let intStart := min start s.length
  let intEnd := min stop s.length
  let lo := min intStart intEnd
  let hi := max intStart intEnd
  (s.drop lo).take (hi - lo)

/-- `String.prototype.substring(start)`: the end defaults to the length. -/
def substringFrom (s : JSString) (start : Nat) : JSString :=
  substring s start s.length

/-- `s.replace(/\s/g, '\u00a0')`: every code unit matched by `\s` is replaced, one by
one from the left, by U+00A0. -/
def replaceWhiteSpace : JSString → JSString
  | [] => []
  | c :: cs => (if isWhiteSpace c then nbsp else c) :: replaceWhiteSpace cs

/-- Value of a run of decimal digits. -/
def digitsValue (ds : List Char) : Nat :=
  ds.foldl (fun n d => 10 * n + (d.toNat - 48)) 0

/-- `parseInt(s, 10)`: leading white space is skipped, one sign is read, then the longest
run of decimal digits; no digit gives `NaN`. -/
def parseInt (s : String) : JSNumber :=
  let cs := s.toList.dropWhile (fun c => isWhiteSpace c.toNat)
  let negative := cs.head? == some '-'
  let cs := if cs.head? == some '-' || cs.head? == some '+' then cs.tail else cs
  let ds := cs.takeWhile Char.isDigit
  if ds.isEmpty then JSNumber.nan
  else if negative then JSNumber.ofInt (-(digitsValue ds : Int))
  else JSNumber.ofInt (digitsValue ds)

/-! ## The DOM objects the hook touches -/

/-- A `CSSStyleDeclaration`, read by property name; an unset property reads `""`. -/
abbrev Style := String → String

/-- The assignment `style[prop] = value`. -/
def assign (style : Style) (prop value : String) : Style :=
  fun p => if p = prop then value else style p

/-- The marker `span`. -/
structure Span where
  textContent : JSString
  backgroundColor : String

/-- A child node of the mirror: a text node or the marker span. -/
inductive Node where
  | text (data : JSString)
  | span (s : Span)

/-- The off-screen mirror `div`. -/
structure Mirror where
  id : String
  style : Style
  childNodes : List Node

/-- Text of one node, as `textContent` reads it. -/
def Node.textContent : Node → JSString
  | .text d => d
  | .span s => s.textContent

/-- The getter `mirror.textContent`: the concatenated text of all descendants. -/
def Mirror.textContent (m : Mirror) : JSString :=
  (m.childNodes.map Node.textContent).flatten

/-- The setter `mirror.textContent = s`: all children are replaced by one text node,
or by nothing when `s` is empty. -/
def Mirror.setTextContent (m : Mirror) (s : JSString) : Mirror :=
  { m with childNodes := if s.isEmpty then [] else [Node.text s] }

/-- The call `mirror.appendChild(span)`. -/
def Mirror.appendChild (m : Mirror) (s : Span) : Mirror :=
  { m with childNodes := m.childNodes ++ [Node.span s] }

/-- The assignment `mirror.innerHTML = ''`: every child is removed. -/
def Mirror.clear (m : Mirror) : Mirror :=
  { m with childNodes := [] }

/-- The assignment `span.style.backgroundColor = color` on the marker spans in the mirror. -/
def Mirror.highlight (m : Mirror) (color : String) : Mirror :=
  { m with childNodes := m.childNodes.map fun
      | .span s => .span { s with backgroundColor := color }
      | n => n }

/-- The mirror's direct text: the data of its text-node children, the marker left out. -/
def Mirror.directText (m : Mirror) : JSString :=
  (m.childNodes.map fun
    | .text d => d
    | .span _ => []).flatten

/-- Text of the marker spans among the mirror's children. -/
def Mirror.markerText (m : Mirror) : List JSString :=
  m.childNodes.filterMap fun
    | .text _ => none
    | .span s => some s.textContent

/-- The result of `getBoundingClientRect()`, as far as the hook reads it. -/
structure DOMRect where
  top : JSNumber
  left : JSNumber

/-- The target `textarea` or `input`, as far as the hook reads it. -/
structure Element where
  nodeName : String
  value : JSString
  selectionStart : Option Nat
  scrollTop : JSNumber
  scrollLeft : JSNumber
  computedStyle : Style
  boundingClientRect : DOMRect

/-- The `window`: the engine marker `mozInnerScreenX` (`none` when absent or nullish) and
the layout oracle for the marker appended last to the mirror. -/
structure Window where
  mozInnerScreenX : Option Int
  offsetTop : Mirror → Int
  offsetLeft : Mirror → Int

/-- The published coordinates. -/
structure CaretCoordinates where
  top : JSNumber
  left : JSNumber
  height : JSNumber
  deriving DecidableEq, Repr

/-! ## Constants of the module -/

/-- The computed styles copied to the mirror. -/
def PROPERTIES : List String :=
  ["direction", "boxSizing", "width", "height", "overflowX", "overflowY",
   "borderTopWidth", "borderRightWidth", "borderBottomWidth", "borderLeftWidth",
   "borderStyle", "paddingTop", "paddingRight", "paddingBottom", "paddingLeft",
   "fontStyle", "fontVariant", "fontWeight", "fontStretch", "fontSize",
   "fontSizeAdjust", "lineHeight", "fontFamily", "textAlign", "textTransform",
   "textIndent", "textDecoration", "letterSpacing", "wordSpacing", "tabSize",
   "MozTabSize"]

/-- Events that can move the caret or change content. -/
def TRACK_EVENTS : List String := ["input"]

/-- The id given to the mirror. -/
def MIRROR_ITEM_ID : String := "textarea-caret-position-mirror"

/-! ## compute, stage by stage -/

/-- The test `el.nodeName === 'INPUT'`. -/
def isInput (el : Element) : Bool :=
  el.nodeName == "INPUT"

/-- The test `'mozInnerScreenX' in window && window.mozInnerScreenX != null`. -/
def isFirefox (w : Window) : Bool :=
  w.mozInnerScreenX.isSome

/-- The element made by `document.createElement('div')` with the mirror's id. -/
def createMirror : Mirror :=
  { id := MIRROR_ITEM_ID, style := fun _ => "", childNodes := [] }

/-- Lines 92-104: the style written to the mirror, from the style it had. -/
def replicateStyle (debug : Bool) (w : Window) (el : Element) (style : Style) : Style :=
  let computed := el.computedStyle
  let style := PROPERTIES.foldl (fun st prop => assign st prop (computed prop)) style
  let style := if isInput el then assign style "lineHeight" (computed "height") else style
  let style := assign style "whiteSpace" "pre-wrap"
  let style := if !isInput el then assign style "wordWrap" "break-word" else style
  let style := assign style "position" "absolute"
  let style := assign style "visibility" (if debug then "visible" else "hidden")
  let style := assign style "top" "0"
  let style := assign style "left" "-9999px"
  assign style "overflow" (if isFirefox w then "scroll" else "hidden")

/-- Lines 106-113: the mirror filled with the text before the caret and the marker. -/
def fillMirror (el : Element) (mirror : Mirror) : Mirror :=
  let position := el.selectionStart.getD 0
  let value := el.value
  let mirror := mirror.setTextContent (substring value 0 position)
  let mirror :=
    if isInput el then mirror.setTextContent (replaceWhiteSpace mirror.textContent)
    else mirror
  let span : Span :=
    { textContent :=
        if (substringFrom value position).isEmpty then js "." else substringFrom value position,
      backgroundColor := "" }
  mirror.appendChild span

/-- The mirror as the layout engine sees it when the marker's offsets are read: created
if there was none, restyled and filled. -/
def measuredMirror (debug : Bool) (w : Window) (el : Element) (mirrorRef : Option Mirror) :
    Mirror :=
  let mirror := mirrorRef.getD createMirror
  fillMirror el { mirror with style := replicateStyle debug w el mirror.style }

/-- Lines 115-133: the coordinates handed to `setCoords`. -/
def resolve (relative : Bool) (w : Window) (el : Element) (mirror : Mirror) :
    CaretCoordinates :=
  let computed := el.computedStyle
  let caretInsideY :=
    JSNumber.ofInt (w.offsetTop mirror) - el.scrollTop
      + parseInt (computed "borderTopWidth")
  let caretInsideX :=
    JSNumber.ofInt (w.offsetLeft mirror) - el.scrollLeft
      + parseInt (computed "borderLeftWidth")
  let rect := el.boundingClientRect
  let top := rect.top + caretInsideY
  let left := rect.left + caretInsideX
  let height := parseInt (computed "lineHeight")
  if relative then { top := caretInsideY, left := caretInsideX, height := height }
  else { top := top, left := left, height := height }

/-! ## React cells and the animation-frame list -/

/-- The `opts` argument; an absent field is `none`. -/
structure Options where
  debug : Option Bool
  relative : Option Bool

/-- The function object `compute` made at one render: the variables it closes over;
`ident` is the render that made it and tells function objects apart. -/
structure Compute where
  debug : Bool
  relative : Bool
  ref : Nat
  ident : Nat

/-- What the document holds when code runs: the window and `ref.current` of each ref. -/
structure Page where
  window : Window
  current : Nat → Option Element

/-- State of one hook instance and of the window's animation-frame callbacks. -/
structure State where
  /-- Cell of `useState`. -/
  coords : CaretCoordinates
  /-- Cell of `useRef` holding the mirror. -/
  mirrorRef : Option Mirror
  /-- Cell of `useRef` holding the last animation-frame handle. -/
  raf : Option Nat
  /-- Cell of `useCallback`: the dependencies `[debug, ref]` and the memoised function. -/
  memo : Option ((Bool × Nat) × Compute)
  /-- Dependencies `[ref, debug, compute]` of the last run of the layout effect. -/
  effectDeps : Option (Nat × Bool × Nat)
  /-- The `compute` captured by the `schedule` listener now attached, if any. -/
  listener : Option Compute
  /-- Number of renders so far. -/
  renders : Nat
  /-- The window's animation frame callback identifier. -/
  frameId : Nat
  /-- The window's list of animation frame callbacks, oldest first. -/
  callbacks : List (Nat × Compute)

/-- State before the first render. -/
def State.init : State :=
  { coords := { top := .ofInt 0, left := .ofInt 0, height := .ofInt 0 },
    mirrorRef := none, raf := none, memo := none, effectDeps := none, listener := none,
    renders := 0, frameId := 0, callbacks := [] }

/-- The helper `compute` (lines 73-136). -/
def compute (c : Compute) (page : Page) (s : State) : State :=
  match page.current c.ref with
  | none => s
  | some el =>
    let mirror := measuredMirror c.debug page.window el s.mirrorRef
    let coords := resolve c.relative page.window el mirror
    let mirror := if c.debug then mirror.highlight "#ff0" else mirror
    { s with coords := coords, mirrorRef := some mirror.clear }

/-- The call `cancelAnimationFrame(handle)`. -/
def cancelAnimationFrame (handle : Nat) (s : State) : State :=
  { s with callbacks := s.callbacks.filter fun e => e.1 != handle }

/-- The call `requestAnimationFrame(cb)`: the new handle and the new state. -/
def requestAnimationFrame (cb : Compute) (s : State) : Nat × State :=
  let handle := s.frameId + 1
  (handle, { s with frameId := handle, callbacks := s.callbacks ++ [(handle, cb)] })

/-- The listener `schedule` (lines 143-146) of an effect that captured `cb`; a null
`raf.current` is handle `0`, which no request ever gets. -/
def schedule (cb : Compute) (s : State) : State :=
  let s := cancelAnimationFrame (s.raf.getD 0) s
  let (handle, s) := requestAnimationFrame cb s
  { s with raf := some handle }

/-- The measurements the next frame will run, in order. -/
def pending (s : State) : List Compute :=
  s.callbacks.map Prod.snd

/-- The browser runs the animation frame callbacks: the list is emptied, then each
callback is called. -/
def frame (page : Page) (s : State) : State :=
  (pending s).foldl (fun st cb => compute cb page st) { s with callbacks := [] }

/-- One call `useCaretCoordinates(ref, opts)` followed by its layout effect. -/
def render (ref : Nat) (opts : Options) (page : Page) (s : State) : State :=
  let debug := opts.debug.getD false
  let relative := opts.relative.getD false
  let fresh : Compute := { debug := debug, relative := relative, ref := ref, ident := s.renders }
  let cb :=
    match s.memo with
    | some (deps, old) => if deps = (debug, ref) then old else fresh
    | none => fresh
  let s := { s with memo := some ((debug, ref), cb), renders := s.renders + 1 }
  if s.effectDeps = some (ref, debug, cb.ident) then s
  else
    let s := { s with effectDeps := some (ref, debug, cb.ident), listener := none }
    match page.current ref with
    | none => s
    | some _ => compute cb page { s with listener := some cb }

/-- A tracked event reaches the element that carries the listener. -/
def input (s : State) : State :=
  match s.listener with
  | none => s
  | some cb => schedule cb s

/-- What can happen to a hook instance. -/
inductive Event where
  | render (ref : Nat) (opts : Options)
  | input
  | frame

/-- One event, on the page as it is when the event happens. -/
def step (s : State) (e : Page × Event) : State :=
  match e.2 with
  | .render ref opts => render ref opts e.1 s
  | .input => input s
  | .frame => frame e.1 s

/-- A history of events from the state before the first render. -/
def run (trace : List (Page × Event)) : State :=
  trace.foldl step State.init

/-- Whether the mirror, if there is one, has no child. -/
def mirrorEmpty (s : State) : Bool :=
  match s.mirrorRef with
  | none => true
  | some m => m.childNodes.isEmpty

/-- Frame coalescing as a state predicate: no callback is listed, or exactly one is and
its handle is the one stored in `raf`. -/
def coalesced (s : State) : Prop :=
  s.callbacks = [] ∨ ∃ cb, s.callbacks = [(s.raf.getD 0, cb)]

/-- Whether a style keeps text on one line: in CSS the values of `white-space` that forbid
wrapping are `nowrap` and `pre`. -/
def nonWrapping (style : Style) : Bool :=
  style "whiteSpace" == "nowrap" || style "whiteSpace" == "pre"

/-! ## Sample page used to evaluate the definitions -/

/-- A computed style with a 2px top border, a 1px left border and an 18px line height. -/
def sampleStyle : Style := fun p =>
  if p = "borderTopWidth" then "2px"
  else if p = "borderLeftWidth" then "1px"
  else if p = "lineHeight" then "18px"
  else if p = "height" then "24px"
  else ""

/-- A layout engine that puts the marker 7px to the right per code unit before it. -/
def sampleWindow : Window :=
  { mozInnerScreenX := none,
    offsetTop := fun _ => 3,
    offsetLeft := fun m => 7 * (m.directText.length : Int) }

/-- A control of the given kind holding `value` with the caret at `position`, scrolled
by 1px and 4px, placed at (100, 50) in the viewport. -/
def sampleElement (nodeName : String) (value : JSString) (position : Nat) : Element :=
  { nodeName := nodeName, value := value, selectionStart := some position,
    scrollTop := .ofInt 1, scrollLeft := .ofInt 4, computedStyle := sampleStyle,
    boundingClientRect := { top := .ofInt 100, left := .ofInt 50 } }

/-- The sample `input` holding `"hello"` with the caret at the end, placed at
(0.1, 50.1) in the viewport: `3602879701896397 / 2 ^ 55` is the double nearest 0.1 and
`7050948166601933 / 2 ^ 47` the double nearest 50.1. -/
def fractionalElement : Element :=
  { sampleElement "INPUT" (js "hello") 5 with
    boundingClientRect :=
      { top := .dyadic 3602879701896397 55, left := .dyadic 7050948166601933 47 } }

/-- A page whose ref 0 holds the given element, every other ref being null. -/
def samplePage (el : Option Element) : Page :=
  { window := sampleWindow, current := fun r => if r = 0 then el else none }

/-- The sample control after the user typed one more character. -/
def typedElement : Element :=
  sampleElement "INPUT" (js "hello!") 6

/-- A mount with `relative` absent, a re-render with `relative: true` and the same `debug`
and ref, then a notification and the frame that serves it, the control having changed. -/
def rerenderTrace : List (Page × Event) :=
  [(samplePage (some (sampleElement "INPUT" (js "hello") 5)),
      .render 0 { debug := none, relative := none }),
   (samplePage (some (sampleElement "INPUT" (js "hello") 5)),
      .render 0 { debug := none, relative := some true }),
   (samplePage (some typedElement), .input),
   (samplePage (some typedElement), .frame)]

/-! ## Strings -/

theorem substring_zero (v : JSString) (p : Nat) : substring v 0 p = v.take p := by
  simp only [substring, Nat.zero_min, Nat.zero_le, max_eq_right, List.drop_zero, Nat.sub_zero]
  rcases Nat.le_total p v.length with h | h
  · rw [Nat.min_eq_left h]
  · rw [Nat.min_eq_right h, List.take_of_length_le (Nat.le_refl _), List.take_of_length_le h]

theorem substringFrom_eq_drop (v : JSString) (p : Nat) : substringFrom v p = v.drop p := by
  simp only [substringFrom, substring, Nat.min_self]
  rw [min_eq_left (Nat.min_le_right _ _), max_eq_right (Nat.min_le_right _ _)]
  rcases Nat.le_total p v.length with h | h
  · rw [Nat.min_eq_left h]
    exact List.take_of_length_le (by simp)
  · rw [Nat.min_eq_right h, List.drop_of_length_le h, List.drop_of_length_le (Nat.le_refl _)]
    simp

theorem replaceWhiteSpace_eq_map (v : JSString) :
    replaceWhiteSpace v = v.map fun c => if isWhiteSpace c then nbsp else c := by
  induction v with
  | nil => rfl
  | cons c cs ih => simp [replaceWhiteSpace, ih]

theorem textContent_setTextContent (m : Mirror) (v : JSString) :
    (m.setTextContent v).textContent = v := by
  cases v <;> simp [Mirror.setTextContent, Mirror.textContent, Node.textContent]

theorem directText_setTextContent_append (m : Mirror) (v : JSString) (sp : Span) :
    ((m.setTextContent v).appendChild sp).directText = v := by
  cases v <;> simp [Mirror.setTextContent, Mirror.appendChild, Mirror.directText]

theorem markerText_setTextContent_append (m : Mirror) (v : JSString) (sp : Span) :
    ((m.setTextContent v).appendChild sp).markerText = [sp.textContent] := by
  cases v <;> simp [Mirror.setTextContent, Mirror.appendChild, Mirror.markerText]

/-- The marker of a filled mirror holds the text from the caret on, or the placeholder. -/
theorem markerText_fillMirror (el : Element) (m : Mirror) :
    (fillMirror el m).markerText =
      [if (el.value.drop (el.selectionStart.getD 0)).isEmpty then js "."
       else el.value.drop (el.selectionStart.getD 0)] := by
  unfold fillMirror
  simp only [substringFrom_eq_drop, substring_zero]
  cases isInput el <;> simp [markerText_setTextContent_append]

/-- The direct text of a filled mirror is the text before the caret, with white space
replaced when the control is an `input`. -/
theorem directText_fillMirror (el : Element) (m : Mirror) :
    (fillMirror el m).directText =
      if isInput el then replaceWhiteSpace (el.value.take (el.selectionStart.getD 0))
      else el.value.take (el.selectionStart.getD 0) := by
  unfold fillMirror
  simp only [substring_zero]
  cases isInput el
  · simp [directText_setTextContent_append]
  · simp [directText_setTextContent_append, textContent_setTextContent]

/-! ## Content of the mirror at measurement time -/

/-- C1: for every value `v`, caret index `p` with `0 ≤ p ≤ len v` and either control kind,
the marker node holds `v[p:]` when that suffix is non-empty and the placeholder `"."` when
it is empty; so `p = len v` gives `"."` and `p = 0` with a non-empty value gives the value. -/
theorem marker_holds_suffix_or_placeholder (debug : Bool) (w : Window) (el : Element)
    (mirrorRef : Option Mirror) (p : Nat)
    (hsel : el.selectionStart = some p) (hp : p ≤ el.value.length) :
    (measuredMirror debug w el mirrorRef).markerText =
        [if el.value.drop p = [] then js "." else el.value.drop p]
      ∧ (el.value.drop p = [] ↔ p = el.value.length)
      ∧ (p = el.value.length →
          (measuredMirror debug w el mirrorRef).markerText = [js "."])
      ∧ (p = 0 → el.value ≠ [] →
          (measuredMirror debug w el mirrorRef).markerText = [el.value]) := by
  have hm : (measuredMirror debug w el mirrorRef).markerText =
      [if el.value.drop p = [] then js "." else el.value.drop p] := by
    simp [measuredMirror, markerText_fillMirror, hsel]
  have hiff : el.value.drop p = [] ↔ p = el.value.length := by
    rw [List.drop_eq_nil_iff]
    omega
  refine ⟨hm, hiff, ?_, ?_⟩
  · intro hlen
    rw [hm, if_pos (hiff.mpr hlen)]
  · intro h0 hne
    subst h0
    rw [hm]
    simp [hne]

theorem marker_holds_suffix_or_placeholder_witness :
    (sampleElement "INPUT" (js "hello") 5).selectionStart = some 5
      ∧ 5 ≤ (sampleElement "INPUT" (js "hello") 5).value.length
      ∧ (measuredMirror false sampleWindow (sampleElement "INPUT" (js "hello") 5) none).markerText
          = [[46]] :=
  ⟨rfl, by decide,
    (marker_holds_suffix_or_placeholder false sampleWindow (sampleElement "INPUT" (js "hello") 5)
      none 5 rfl (by decide)).2.2.1 (by decide)⟩

/-- C4, as stated: for the single-line input holding `"a b"` with the caret at 1, the text
before the caret is `"a"` but the marker holds U+0020 then `"b"`, not U+00A0 then `"b"`:
the white space after the caret is not substituted. -/
theorem marker_white_space_not_substituted :
    isInput (sampleElement "INPUT" (js "a b") 1) = true
      ∧ (measuredMirror false sampleWindow (sampleElement "INPUT" (js "a b") 1) none).directText
          = js "a"
      ∧ (measuredMirror false sampleWindow (sampleElement "INPUT" (js "a b") 1) none).markerText
          = [[0x20, 0x62]]
      ∧ (measuredMirror false sampleWindow (sampleElement "INPUT" (js "a b") 1) none).markerText
          ≠ [[0xA0, 0x62]] := by
  decide

/-- C4, amended: for a single-line input and a caret index `p < len v`, the marker holds
`v[p:]` itself: the code unit at index `i` of the marker is `v[p + i]`, white space
included; the substitution by U+00A0 reaches the text before the caret only. -/
theorem marker_keeps_white_space (debug : Bool) (w : Window) (el : Element)
    (mirrorRef : Option Mirror) (p : Nat)
    (hin : isInput el = true) (hsel : el.selectionStart = some p)
    (hp : p < el.value.length) :
    (measuredMirror debug w el mirrorRef).markerText = [el.value.drop p]
      ∧ (∀ i : Nat, (el.value.drop p)[i]? = el.value[p + i]?)
      ∧ (measuredMirror debug w el mirrorRef).directText
          = replaceWhiteSpace (el.value.take p) := by
  refine ⟨?_, fun i => List.getElem?_drop _ _ _, ?_⟩
  · have hne : ¬ el.value.length ≤ p := by omega
    simp [measuredMirror, markerText_fillMirror, hsel, hne]
  · simp [measuredMirror, directText_fillMirror, hsel, hin]

theorem marker_keeps_white_space_witness :
    isInput (sampleElement "INPUT" (js "a b") 1) = true
      ∧ (sampleElement "INPUT" (js "a b") 1).selectionStart = some 1
      ∧ 1 < (sampleElement "INPUT" (js "a b") 1).value.length
      ∧ (measuredMirror false sampleWindow (sampleElement "INPUT" (js "a b") 1) none).markerText
          = [[0x20, 0x62]] :=
  ⟨by decide, rfl, by decide,
    (marker_keeps_white_space false sampleWindow (sampleElement "INPUT" (js "a b") 1) none 1
      (by decide) rfl (by decide)).1⟩

/-- C5: for every value `v` and caret index `p` with `0 ≤ p ≤ len v`, the mirror's direct
text is `v[0:p]` for a multi-line control and, for a single-line input, `v[0:p]` with each
white-space code unit replaced by U+00A0 and every other code unit unchanged; a text
without white space is mirrored verbatim. -/
theorem direct_text_before_caret (debug : Bool) (w : Window) (el : Element)
    (mirrorRef : Option Mirror) (p : Nat)
    (hsel : el.selectionStart = some p) (hp : p ≤ el.value.length) :
    (measuredMirror debug w el mirrorRef).directText =
        (if isInput el then (el.value.take p).map fun c => if isWhiteSpace c then nbsp else c
         else el.value.take p)
      ∧ (measuredMirror debug w el mirrorRef).directText.length = p
      ∧ ((∀ c ∈ el.value.take p, isWhiteSpace c = false) →
          (measuredMirror debug w el mirrorRef).directText = el.value.take p) := by
  have hd : (measuredMirror debug w el mirrorRef).directText =
      (if isInput el then (el.value.take p).map fun c => if isWhiteSpace c then nbsp else c
       else el.value.take p) := by
    simp [measuredMirror, directText_fillMirror, hsel, replaceWhiteSpace_eq_map]
  refine ⟨hd, ?_, ?_⟩
  · rw [hd]
    split <;> simp [hp]
  · intro hno
    rw [hd]
    split
    · conv_rhs => rw [← List.map_id (el.value.take p)]
      apply List.map_congr_left
      intro c hc
      simp [hno c hc]
    · rfl

theorem direct_text_before_caret_witness :
    (sampleElement "INPUT" (js "hello") 5).selectionStart = some 5
      ∧ 5 ≤ (sampleElement "INPUT" (js "hello") 5).value.length
      ∧ (measuredMirror false sampleWindow (sampleElement "INPUT" (js "hello") 5) none).directText
          = js "hello" :=
  ⟨rfl, by decide,
    (direct_text_before_caret false sampleWindow (sampleElement "INPUT" (js "hello") 5)
      none 5 rfl (by decide)).2.2 (by decide)⟩

/-! ## Coordinates -/

theorem bitLengthAux_le (fuel : Nat) :
    ∀ n k : Nat, n ≤ fuel → n < 2 ^ k → bitLengthAux fuel n ≤ k := by
  induction fuel with
  | zero => intro n k _ _; simp [bitLengthAux]
  | succ f ih =>
    intro n k hn hk
    unfold bitLengthAux
    split
    · exact Nat.zero_le _
    · rename_i hne
      cases k with
      | zero => simp at hk; exact absurd hk hne
      | succ k =>
        have h2 : n / 2 < 2 ^ k := by
          rw [Nat.div_lt_iff_lt_mul (by decide)]
          rw [Nat.pow_succ] at hk
          exact hk
        have h3 : n / 2 ≤ f := by omega
        exact Nat.succ_le_succ (ih _ _ h3 h2)

/-- A magnitude that fits 53 bits above a common power of two is kept by the rounding. -/
theorem roundMagnitude_exact (n j : Nat) (hn : n < 2 ^ (53 + j)) (hd : 2 ^ j ∣ n) :
    roundMagnitude n = n := by
  have hsh : bitLength n - 53 ≤ j := by
    have := bitLengthAux_le n n _ (Nat.le_refl _) hn
    unfold bitLength
    omega
  have hdvd : 2 ^ (bitLength n - 53) ∣ n := (Nat.pow_dvd_pow 2 hsh).trans hd
  have hr : n % 2 ^ (bitLength n - 53) = 0 := Nat.mod_eq_zero_of_dvd hdvd
  have hpos : 0 < 2 ^ (bitLength n - 53) := Nat.two_pow_pos _
  simp only [roundMagnitude, hr, Nat.mul_zero]
  rw [if_neg]
  · exact Nat.div_mul_cancel hdvd
  · rintro (h | ⟨h, _⟩)
    · exact absurd h (Nat.not_lt_zero _)
    · omega

theorem roundUnits_exact (n : Int) (j : Nat) (hj : 53 + j ≤ 2098)
    (hn : n.natAbs < 2 ^ (53 + j)) (hd : 2 ^ j ∣ n.natAbs) : roundUnits n = .fin n := by
  have hlt : n.natAbs < 2 ^ 2098 :=
    Nat.lt_of_lt_of_le hn (Nat.pow_le_pow_right (by decide) hj)
  simp only [roundUnits, roundMagnitude_exact _ _ hn hd, Nat.not_le.mpr hlt, if_false]
  split
  · congr 1; omega
  · congr 1; omega

/-- An integer below `2 ^ 53` in magnitude is a double. -/
theorem ofInt_exact (k : Int) (hk : k.natAbs < 2 ^ 53) :
    JSNumber.ofInt k = .fin (k * (2 ^ 1074 : Nat)) := by
  unfold JSNumber.ofInt JSNumber.dyadic
  apply roundUnits_exact _ 1074 (by decide)
  · rw [Int.natAbs_mul, Int.natAbs_ofNat, Nat.pow_add]
    exact Nat.mul_lt_mul_of_pos_right hk (Nat.two_pow_pos _)
  · rw [Int.natAbs_mul, Int.natAbs_ofNat]
    exact Nat.dvd_mul_left _ _

/-- On whole numbers below `2 ^ 52` in magnitude, adding and subtracting one cancel. -/
theorem ofInt_add_sub_cancel (r t : Int) (hr : r.natAbs < 2 ^ 52) (ht : t.natAbs < 2 ^ 52) :
    JSNumber.ofInt r + JSNumber.ofInt t - JSNumber.ofInt r = JSNumber.ofInt t := by
  have h52 : (2 : Nat) ^ 53 = 2 ^ 52 + 2 ^ 52 := by decide
  have hr1 : r.natAbs < 2 ^ 53 := by omega
  have ht1 : t.natAbs < 2 ^ 53 := by omega
  have hs : (r + t).natAbs < 2 ^ 53 := by
    have := Int.natAbs_add_le r t
    omega
  have hadd : JSNumber.ofInt r + JSNumber.ofInt t = JSNumber.ofInt (r + t) := by
    rw [ofInt_exact r hr1, ofInt_exact t ht1]
    show roundUnits _ = _
    rw [← Int.add_mul]
    rfl
  rw [hadd, ofInt_exact _ hs, ofInt_exact r hr1]
  show roundUnits _ = _
  rw [← Int.sub_mul, add_sub_cancel_left]
  rfl

theorem coords_compute (c : Compute) (page : Page) (s : State) (el : Element)
    (hel : page.current c.ref = some el) :
    (compute c page s).coords =
      resolve c.relative page.window el (measuredMirror c.debug page.window el s.mirrorRef) := by
  simp [compute, hel]

/-- C2, as stated: for the sample input placed at (0.1, 50.1) in the viewport, relative
mode publishes top 4 and left 32, while the absolute result minus the rectangle's top and
left is 3.9999999999999996 and 31.999999999999993: the additions `0.1 + 4` and
`50.1 + 32` round. -/
theorem mode_consistency_fails_on_fractional_rectangle :
    fractionalElement.boundingClientRect.top
        = .fin (3602879701896397 * (2 ^ 1019 : Nat))
      ∧ fractionalElement.boundingClientRect.left
        = .fin (7050948166601933 * (2 ^ 1027 : Nat))
      ∧ (compute { debug := false, relative := true, ref := 0, ident := 0 }
          (samplePage (some fractionalElement)) State.init).coords.top = .ofInt 4
      ∧ (compute { debug := false, relative := false, ref := 0, ident := 0 }
          (samplePage (some fractionalElement)) State.init).coords.top
          - fractionalElement.boundingClientRect.top = .dyadic 9007199254740991 51
      ∧ (compute { debug := false, relative := true, ref := 0, ident := 0 }
          (samplePage (some fractionalElement)) State.init).coords.top
        ≠ (compute { debug := false, relative := false, ref := 0, ident := 0 }
            (samplePage (some fractionalElement)) State.init).coords.top
          - fractionalElement.boundingClientRect.top
      ∧ (compute { debug := false, relative := true, ref := 0, ident := 0 }
          (samplePage (some fractionalElement)) State.init).coords.left = .ofInt 32
      ∧ (compute { debug := false, relative := false, ref := 0, ident := 0 }
          (samplePage (some fractionalElement)) State.init).coords.left
          - fractionalElement.boundingClientRect.left = .dyadic 4503599627370495 47
      ∧ (compute { debug := false, relative := true, ref := 0, ident := 0 }
          (samplePage (some fractionalElement)) State.init).coords.left
        ≠ (compute { debug := false, relative := false, ref := 0, ident := 0 }
            (samplePage (some fractionalElement)) State.init).coords.left
          - fractionalElement.boundingClientRect.left := by
  decide!

/-- C2, amended: for every state of the target and the same marker offsets, the result
published with `relative = false` has `top` and `left` equal to the bounding rectangle's
`top` and `left` plus those published with `relative = true`, one double addition each,
and the two results have the same `height`; subtracting the rectangle's `top` or `left`
from the absolute result gives the relative one back whenever the rectangle's coordinate
and the relative coordinate are whole numbers below `2 ^ 52` in magnitude. -/
theorem absolute_is_rectangle_plus_relative (cRel cAbs : Compute) (page : Page) (s : State)
    (el : Element)
    (hrel : cRel.relative = true) (habs : cAbs.relative = false)
    (hdebug : cRel.debug = cAbs.debug) (href : cRel.ref = cAbs.ref)
    (hel : page.current cAbs.ref = some el) :
    (compute cAbs page s).coords.top
        = el.boundingClientRect.top + (compute cRel page s).coords.top
      ∧ (compute cAbs page s).coords.left
        = el.boundingClientRect.left + (compute cRel page s).coords.left
      ∧ (compute cRel page s).coords.height = (compute cAbs page s).coords.height
      ∧ (∀ r t : Int, r.natAbs < 2 ^ 52 → t.natAbs < 2 ^ 52 →
          el.boundingClientRect.top = .ofInt r → (compute cRel page s).coords.top = .ofInt t →
          (compute cRel page s).coords.top
            = (compute cAbs page s).coords.top - el.boundingClientRect.top)
      ∧ (∀ r t : Int, r.natAbs < 2 ^ 52 → t.natAbs < 2 ^ 52 →
          el.boundingClientRect.left = .ofInt r → (compute cRel page s).coords.left = .ofInt t →
          (compute cRel page s).coords.left
            = (compute cAbs page s).coords.left - el.boundingClientRect.left) := by
  have htop : (compute cAbs page s).coords.top
      = el.boundingClientRect.top + (compute cRel page s).coords.top := by
    rw [coords_compute cRel page s el (href ▸ hel), coords_compute cAbs page s el hel,
      hrel, habs, hdebug]
    simp [resolve]
  have hleft : (compute cAbs page s).coords.left
      = el.boundingClientRect.left + (compute cRel page s).coords.left := by
    rw [coords_compute cRel page s el (href ▸ hel), coords_compute cAbs page s el hel,
      hrel, habs, hdebug]
    simp [resolve]
  refine ⟨htop, hleft, ?_, ?_, ?_⟩
  · rw [coords_compute cRel page s el (href ▸ hel), coords_compute cAbs page s el hel,
      hrel, habs, hdebug]
    simp [resolve]
  · intro r t hr ht hrect hloc
    rw [htop, hrect, hloc]
    exact (ofInt_add_sub_cancel r t hr ht).symm
  · intro r t hr ht hrect hloc
    rw [hleft, hrect, hloc]
    exact (ofInt_add_sub_cancel r t hr ht).symm

theorem absolute_is_rectangle_plus_relative_witness :
    (samplePage (some (sampleElement "TEXTAREA" (js "a b") 1))).current 0
        = some (sampleElement "TEXTAREA" (js "a b") 1)
      ∧ (compute { debug := false, relative := true, ref := 0, ident := 0 }
            (samplePage (some (sampleElement "TEXTAREA" (js "a b") 1))) State.init).coords.top
          = .ofInt 4
      ∧ (compute { debug := false, relative := false, ref := 0, ident := 0 }
            (samplePage (some (sampleElement "TEXTAREA" (js "a b") 1))) State.init).coords.top
          = .ofInt 104
      ∧ (compute { debug := false, relative := true, ref := 0, ident := 0 }
            (samplePage (some (sampleElement "TEXTAREA" (js "a b") 1))) State.init).coords.top
          = (compute { debug := false, relative := false, ref := 0, ident := 0 }
              (samplePage (some (sampleElement "TEXTAREA" (js "a b") 1))) State.init).coords.top
            - JSNumber.ofInt 100 :=
  ⟨rfl, by decide!, by decide!,
    (absolute_is_rectangle_plus_relative
      { debug := false, relative := true, ref := 0, ident := 0 }
      { debug := false, relative := false, ref := 0, ident := 0 }
      (samplePage (some (sampleElement "TEXTAREA" (js "a b") 1))) State.init
      (sampleElement "TEXTAREA" (js "a b") 1) rfl rfl rfl rfl rfl).2.2.2.1 100 4
      (by decide) (by decide) rfl (by decide!)⟩

/-- C3: in relative mode, for every non-null target, the published result is exactly
`top = marker.offsetTop - el.scrollTop + parseInt(borderTopWidth)`,
`left = marker.offsetLeft - el.scrollLeft + parseInt(borderLeftWidth)` and
`height = parseInt(lineHeight)`; replacing the bounding rectangle by any other leaves the
result the same. -/
theorem relative_result (c : Compute) (page : Page) (s : State) (el : Element)
    (hrel : c.relative = true) (hel : page.current c.ref = some el) :
    (compute c page s).coords =
        { top := JSNumber.ofInt
              (page.window.offsetTop (measuredMirror c.debug page.window el s.mirrorRef))
            - el.scrollTop + parseInt (el.computedStyle "borderTopWidth"),
          left := JSNumber.ofInt
              (page.window.offsetLeft (measuredMirror c.debug page.window el s.mirrorRef))
            - el.scrollLeft + parseInt (el.computedStyle "borderLeftWidth"),
          height := parseInt (el.computedStyle "lineHeight") }
      ∧ ∀ rect : DOMRect,
          (compute c
            { page with current := fun r =>
                if r = c.ref then some { el with boundingClientRect := rect }
                else page.current r } s).coords
          = (compute c page s).coords := by
  constructor
  · rw [coords_compute c page s el hel, hrel]
    simp [resolve]
  · intro rect
    rw [coords_compute c page s el hel,
      coords_compute c _ s { el with boundingClientRect := rect } (by simp), hrel]
    rfl

theorem relative_result_witness :
    (samplePage (some (sampleElement "INPUT" (js "a b") 1))).current 0
        = some (sampleElement "INPUT" (js "a b") 1)
      ∧ (compute { debug := false, relative := true, ref := 0, ident := 0 }
            (samplePage (some (sampleElement "INPUT" (js "a b") 1))) State.init).coords
          = { top := .ofInt 4, left := .ofInt 4, height := .ofInt 18 } :=
  ⟨rfl,
    ((relative_result { debug := false, relative := true, ref := 0, ident := 0 }
      (samplePage (some (sampleElement "INPUT" (js "a b") 1))) State.init
      (sampleElement "INPUT" (js "a b") 1) rfl rfl).1).trans (by decide!)⟩

/-- C6: when the target reference is null as `compute` runs, nothing is measured: the
state is returned as it was, so the published coordinates stay the last published ones
(`top = 0, left = 0, height = 0` before any measurement) and the mirror is neither
created nor modified. -/
theorem null_target_skips_measurement (c : Compute) (page : Page) (s : State)
    (hnull : page.current c.ref = none) :
    compute c page s = s
      ∧ (compute c page State.init).coords
          = { top := .ofInt 0, left := .ofInt 0, height := .ofInt 0 }
      ∧ (compute c page State.init).mirrorRef = none := by
  have h : ∀ t : State, compute c page t = t := fun t => by simp [compute, hnull]
  exact ⟨h s, by rw [h]; rfl, by rw [h]; rfl⟩

theorem null_target_skips_measurement_witness :
    (samplePage none).current 0 = none
      ∧ (compute { debug := false, relative := false, ref := 0, ident := 0 } (samplePage none)
          (compute { debug := false, relative := false, ref := 0, ident := 0 }
            (samplePage (some (sampleElement "INPUT" (js "hello") 5))) State.init)).coords
        = { top := .ofInt 104, left := .ofInt 82, height := .ofInt 18 } :=
  ⟨rfl,
    (congrArg State.coords
      (null_target_skips_measurement { debug := false, relative := false, ref := 0, ident := 0 }
        (samplePage none)
        (compute { debug := false, relative := false, ref := 0, ident := 0 }
          (samplePage (some (sampleElement "INPUT" (js "hello") 5))) State.init) rfl).1).trans
      (by decide!)⟩

/-! ## Style replication -/

theorem foldl_assign_of_not_mem (computed : Style) (props : List String) (style : Style)
    (p : String) (hp : p ∉ props) :
    (props.foldl (fun st prop => assign st prop (computed prop)) style) p = style p := by
  induction props generalizing style with
  | nil => rfl
  | cons q qs ih =>
    simp only [List.mem_cons, not_or] at hp
    rw [List.foldl_cons, ih _ hp.2]
    simp [assign, hp.1]

/-- C8, as stated: for a single-line input the style written to a fresh mirror has
`white-space: pre-wrap`, a wrapping value, and no non-wrapping one. -/
theorem input_mirror_style_wraps :
    isInput (sampleElement "INPUT" (js "a b") 1) = true
      ∧ (measuredMirror false sampleWindow (sampleElement "INPUT" (js "a b") 1) none).style
          "whiteSpace" = "pre-wrap"
      ∧ nonWrapping
          (measuredMirror false sampleWindow (sampleElement "INPUT" (js "a b") 1) none).style
          = false := by
  decide

/-- C8, amended: after style replication the mirror has `white-space: pre-wrap` for
either control kind, so its style is never a non-wrapping one; `word-wrap: break-word` is
assigned exactly when the target is not a single-line input, and for a single-line input
the mirror's `word-wrap` is left as it was. -/
theorem mirror_wrapping_style (debug : Bool) (w : Window) (el : Element) (style : Style) :
    replicateStyle debug w el style "whiteSpace" = "pre-wrap"
      ∧ nonWrapping (replicateStyle debug w el style) = false
      ∧ replicateStyle debug w el style "wordWrap"
          = (if isInput el then style "wordWrap" else "break-word") := by
  have hws : replicateStyle debug w el style "whiteSpace" = "pre-wrap" := by
    cases h : isInput el <;> simp [replicateStyle, assign, h]
  refine ⟨hws, by simp [nonWrapping, hws], ?_⟩
  have hmem : "wordWrap" ∉ PROPERTIES := by decide
  cases h : isInput el <;>
    simp [replicateStyle, assign, h, foldl_assign_of_not_mem _ _ _ _ hmem]

/-! ## The mirror between measurements -/

theorem mirrorEmpty_compute (c : Compute) (page : Page) (s : State)
    (h : mirrorEmpty s = true) : mirrorEmpty (compute c page s) = true := by
  unfold compute
  split
  · exact h
  · simp [mirrorEmpty, Mirror.clear]

theorem measuredMirror_stale (debug : Bool) (w : Window) (el : Element) (m : Mirror)
    (stale : List Node) :
    measuredMirror debug w el (some { m with childNodes := stale })
      = measuredMirror debug w el (some { m with childNodes := [] }) := by
  simp [measuredMirror, fillMirror, Mirror.setTextContent, Mirror.appendChild,
    Mirror.textContent]

theorem callbacks_compute (c : Compute) (page : Page) (s : State) :
    (compute c page s).callbacks = s.callbacks ∧ (compute c page s).raf = s.raf
      ∧ (compute c page s).frameId = s.frameId := by
  unfold compute
  split <;> simp

theorem foldl_compute_keeps (page : Page) (cbs : List Compute) (s : State) :
    (cbs.foldl (fun st cb => compute cb page st) s).callbacks = s.callbacks
      ∧ (cbs.foldl (fun st cb => compute cb page st) s).raf = s.raf
      ∧ (mirrorEmpty s = true →
          mirrorEmpty (cbs.foldl (fun st cb => compute cb page st) s) = true) := by
  induction cbs generalizing s with
  | nil => simp
  | cons cb rest ih =>
    simp only [List.foldl_cons]
    obtain ⟨h1, h2, h3⟩ := ih (compute cb page s)
    obtain ⟨k1, k2, _⟩ := callbacks_compute cb page s
    exact ⟨h1.trans k1, h2.trans k2, fun hm => h3 (mirrorEmpty_compute cb page s hm)⟩

theorem render_keeps (ref : Nat) (opts : Options) (page : Page) (s : State) :
    (render ref opts page s).callbacks = s.callbacks ∧ (render ref opts page s).raf = s.raf
      ∧ (mirrorEmpty s = true → mirrorEmpty (render ref opts page s) = true) := by
  unfold render
  simp only
  split
  · exact ⟨rfl, rfl, fun h => h⟩
  · split
    · exact ⟨rfl, rfl, fun h => h⟩
    · refine ⟨(callbacks_compute _ _ _).1, (callbacks_compute _ _ _).2.1, fun h => ?_⟩
      exact mirrorEmpty_compute _ _ _ h

theorem schedule_coalesced (cb : Compute) (s : State) (h : coalesced s) :
    (schedule cb s).callbacks = [(s.frameId + 1, cb)]
      ∧ (schedule cb s).raf = some (s.frameId + 1)
      ∧ (schedule cb s).frameId = s.frameId + 1
      ∧ (schedule cb s).mirrorRef = s.mirrorRef := by
  rcases h with h | ⟨old, h⟩ <;>
    simp [schedule, cancelAnimationFrame, requestAnimationFrame, h]

theorem coalesced_step (s : State) (e : Page × Event) (h : coalesced s) :
    coalesced (step s e) := by
  obtain ⟨page, ev⟩ := e
  cases ev with
  | render ref opts =>
    obtain ⟨h1, h2, _⟩ := render_keeps ref opts page s
    simpa [step, coalesced, h1, h2] using h
  | input =>
    simp only [step, input]
    split
    · exact h
    · rename_i cb _
      obtain ⟨h1, h2, _⟩ := schedule_coalesced cb s h
      exact Or.inr ⟨cb, by rw [h1, h2]; rfl⟩
  | frame =>
    exact Or.inl (by simp [step, frame, (foldl_compute_keeps page _ _).1])

theorem mirrorEmpty_step (s : State) (e : Page × Event) (hc : coalesced s)
    (h : mirrorEmpty s = true) : mirrorEmpty (step s e) = true := by
  obtain ⟨page, ev⟩ := e
  cases ev with
  | render ref opts => exact (render_keeps ref opts page s).2.2 h
  | input =>
    simp only [step, input]
    split
    · exact h
    · rename_i cb _
      simpa [mirrorEmpty, (schedule_coalesced cb s hc).2.2.2] using h
  | frame => exact (foldl_compute_keeps page _ _).2.2 h

theorem run_invariant (trace : List (Page × Event)) :
    coalesced (run trace) ∧ mirrorEmpty (run trace) = true := by
  have key : ∀ (tr : List (Page × Event)) (s : State), coalesced s → mirrorEmpty s = true →
      coalesced (tr.foldl step s) ∧ mirrorEmpty (tr.foldl step s) = true := by
    intro tr
    induction tr with
    | nil => exact fun s hc hm => ⟨hc, hm⟩
    | cons e rest ih =>
      exact fun s hc hm => ih (step s e) (coalesced_step s e hc) (mirrorEmpty_step s e hc hm)
  exact key trace State.init (Or.inl rfl) rfl

theorem burst_coalesced (cbs : List Compute) (s : State) (h : coalesced s) :
    coalesced (cbs.foldl (fun st cb => schedule cb st) s)
      ∧ (cbs.foldl (fun st cb => schedule cb st) s).frameId = s.frameId + cbs.length
      ∧ ∀ hne : cbs ≠ [],
          (cbs.foldl (fun st cb => schedule cb st) s).callbacks
            = [(s.frameId + cbs.length, cbs.getLast hne)]
          ∧ (cbs.foldl (fun st cb => schedule cb st) s).raf = some (s.frameId + cbs.length) := by
  induction cbs using List.reverseRecOn with
  | nil => exact ⟨h, rfl, fun hne => absurd rfl hne⟩
  | append_singleton rest cb ih =>
    obtain ⟨hc, hid, _⟩ := ih
    obtain ⟨h1, h2, h3, _⟩ := schedule_coalesced cb _ hc
    simp only [List.foldl_append, List.foldl_cons, List.foldl_nil, List.length_append,
      List.length_singleton, List.getLast_append_singleton]
    rw [h1, h2, h3, hid]
    exact ⟨Or.inr ⟨cb, by rw [h1, h2, hid]; rfl⟩, by omega, fun _ => ⟨rfl, rfl⟩⟩

/-- C9: after every call of `compute`, measuring or skipped, the mirror, if it exists, has
no content, along any sequence of calls and along any history of renders, notifications
and frames; and neither the mirror that is measured nor the published result depends on
content left in the mirror beforehand. -/
theorem mirror_empty_between_measurements (calls : List (Compute × Page))
    (trace : List (Page × Event)) (c : Compute) (page : Page) (s : State) (el : Element)
    (debug : Bool) (m : Mirror) (stale : List Node) :
    mirrorEmpty (calls.foldl (fun st call => compute call.1 call.2 st) State.init) = true
      ∧ mirrorEmpty (run trace) = true
      ∧ measuredMirror debug page.window el (some { m with childNodes := stale })
          = measuredMirror debug page.window el (some { m with childNodes := [] })
      ∧ (compute c page { s with mirrorRef := some { m with childNodes := stale } }).coords
          = (compute c page { s with mirrorRef := some { m with childNodes := [] } }).coords
      ∧ mirrorEmpty
          (compute c page { s with mirrorRef := some { m with childNodes := [] } }) = true := by
  refine ⟨?_, (run_invariant trace).2, measuredMirror_stale _ _ _ _ _, ?_,
    mirrorEmpty_compute _ _ _ rfl⟩
  · have key : ∀ (cs : List (Compute × Page)) (st : State), mirrorEmpty st = true →
        mirrorEmpty (cs.foldl (fun st call => compute call.1 call.2 st) st) = true := by
      intro cs
      induction cs with
      | nil => exact fun st h => h
      | cons call rest ih => exact fun st h => ih _ (mirrorEmpty_compute _ _ _ h)
    exact key calls State.init rfl
  · unfold compute
    split
    · rfl
    · simp only [measuredMirror_stale]

/-- C10: at every reachable state at most one scheduled measurement is pending; after a
burst of `n ≥ 1` notifications with no frame in between, exactly one measurement is
pending, it is the callback of the last notification under the newest handle, which is
the handle stored in `raf`, and the next frame runs that measurement and no other. -/
theorem frame_coalescing_newest_wins (trace : List (Page × Event)) (cbs : List Compute)
    (page : Page) (hne : cbs ≠ []) :
    (pending (run trace)).length ≤ 1
      ∧ pending (cbs.foldl (fun st cb => schedule cb st) (run trace)) = [cbs.getLast hne]
      ∧ (cbs.foldl (fun st cb => schedule cb st) (run trace)).callbacks.map Prod.fst
          = [(run trace).frameId + cbs.length]
      ∧ (cbs.foldl (fun st cb => schedule cb st) (run trace)).raf
          = some ((run trace).frameId + cbs.length)
      ∧ frame page (cbs.foldl (fun st cb => schedule cb st) (run trace))
          = compute (cbs.getLast hne) page
              { cbs.foldl (fun st cb => schedule cb st) (run trace) with callbacks := [] }
      ∧ pending (frame page (cbs.foldl (fun st cb => schedule cb st) (run trace))) = [] := by
  obtain ⟨_, _, hb⟩ := burst_coalesced cbs (run trace) (run_invariant trace).1
  obtain ⟨hcb, hraf⟩ := hb hne
  have hp : pending (cbs.foldl (fun st cb => schedule cb st) (run trace))
      = [cbs.getLast hne] := by
    simp [pending, hcb]
  refine ⟨?_, hp, by rw [hcb]; rfl, hraf, ?_, ?_⟩
  · rcases (run_invariant trace).1 with h | ⟨cb, h⟩ <;> simp [pending, h]
  · simp [frame, hp]
  · simp [frame, pending, (foldl_compute_keeps page _ _).1]

theorem frame_coalescing_newest_wins_witness :
    ([{ debug := false, relative := false, ref := 0, ident := 1 },
      { debug := false, relative := false, ref := 0, ident := 2 },
      { debug := false, relative := false, ref := 0, ident := 3 }] : List Compute) ≠ []
      ∧ (pending
          (([{ debug := false, relative := false, ref := 0, ident := 1 },
              { debug := false, relative := false, ref := 0, ident := 2 },
              { debug := false, relative := false, ref := 0, ident := 3 }] :
                List Compute).foldl
            (fun st cb => schedule cb st) (run []))).map Compute.ident = [3] :=
  ⟨by simp,
    by
      rw [(frame_coalescing_newest_wins []
        [{ debug := false, relative := false, ref := 0, ident := 1 },
         { debug := false, relative := false, ref := 0, ident := 2 },
         { debug := false, relative := false, ref := 0, ident := 3 }]
        (samplePage none) (by simp)).2.1]
      rfl⟩

/-! ## The option `relative` across renders -/

/-- C7, on the code: after a re-render that only turns `relative` on, the memoised
`compute` still holds `relative = false`, and the next measurement publishes
viewport-absolute coordinates (104, 89) where the content-box-relative ones are (4, 39). -/
theorem relative_stale_after_rerender :
    (run rerenderTrace).memo.map (fun mc => mc.2.relative) = some false
      ∧ (run rerenderTrace).coords
          = { top := .ofInt 104, left := .ofInt 89, height := .ofInt 18 }
      ∧ resolve true sampleWindow typedElement
            (measuredMirror false sampleWindow typedElement none)
          = { top := .ofInt 4, left := .ofInt 39, height := .ofInt 18 } := by
  decide!

end CaretHook
